import Mathlib

/-!
Verification of the date-arithmetic module (`dates.mjs`) of the
Spaced-Repetition-Tracker repository.

JavaScript `Date` values are modelled shallowly.  Every date value that the
module manipulates sits at UTC midnight, so a valid `Date` is represented by
its day number relative to the Unix epoch (1970-01-01 = day 0), and the
JavaScript *Invalid Date* (time value `NaN`, all fields `NaN`) is represented
by `none`:

  `JSDate := Option Int`

The ECMA-262 abstract operations `YearFromTime` / `MonthFromTime` /
`DateFromTime` and `MakeDay` over the proleptic Gregorian calendar are
embedded as `civilFromDays` / `daysFromCivil` / `makeDay` (the standard
civil-calendar day-number conversions), and `TimeClip` as `timeClip`
(the ±100,000,000-day = ±8.64e15 ms range of representable time values).

`new Date(dateString + "T00:00:00.000Z")` is modelled by `parseDateString`,
following the ECMA-262 Date Time String Format: the concatenated string
conforms exactly when `dateString` is one of the date forms `YYYY`,
`YYYY-MM`, `YYYY-MM-DD` or their expanded-year variants
`±YYYYYY[-MM[-DD]]` (absent month and day elements behave as `01`, and the
expanded year `-000000` is explicitly invalid); a conforming string whose
elements name a real proleptic-Gregorian calendar date yields that date's
time value clipped by `TimeClip`, and every other string yields an Invalid
Date.  (Engine-specific fallback parsing of non-conforming strings, which
ECMA-262 leaves implementation-defined, is outside the model.)

`date.toLocaleDateString("en-GB", { month: "long", timeZone: "UTC" })` is
modelled by `monthLongName` applied to the UTC month field: the full English
month name, anchored to UTC.

The two clock-reading functions (`getTodayUTC`, `isFutureDate`) are modelled
with an explicit `HostClock` record carrying the local-timezone calendar
fields and the UTC calendar fields of the host clock instant.

For the non-mutation properties, `Date` objects are additionally modelled as
references into an explicit heap (`DateHeap`), mirroring the source pattern
`const result = new Date(date); result.setUTC...(...); return result;`.
-/

/-- Valid JavaScript `Date` at UTC midnight, as days since the Unix epoch;
`none` is the Invalid Date (`NaN` time value). -/
abbrev JSDate : Type := Option Int

/-- Calendar fields of a date: proleptic-Gregorian year, month (1-12) and
day of month (1-31). -/
structure CivilDate where
  year : Int
  month : Nat
  day : Nat
deriving DecidableEq, Repr

/-- Gregorian leap-year test (divisible by 4 and not by 100 unless by 400),
as in ECMA-262 `DaysInYear`. -/
def isLeap (y : Int) : Bool :=
  y % 4 == 0 && (y % 100 != 0 || y % 400 == 0)

/-- Number of days in a (1-based) month of a given year, as in ECMA-262
`DaysInMonth`; 0 for an out-of-range month index. -/
def daysInMonth (y : Int) (m : Nat) : Nat :=
  match m with
  | 1 => 31
  | 2 => if isLeap y then 29 else 28
  | 3 => 31
  | 4 => 30
  | 5 => 31
  | 6 => 30
  | 7 => 31
  | 8 => 31
  | 9 => 30
  | 10 => 31
  | 11 => 30
  | 12 => 31
  | _ => 0

/-- Days in the given year before the first of the (1-based) month `m`, as in
ECMA-262 `DayWithinYear` bookkeeping. -/
def daysBeforeMonth (y : Int) (m : Nat) : Nat :=
  let leapAdd := if isLeap y then 1 else 0
  match m with
  | 1 => 0
  | 2 => 31
  | 3 => 59 + leapAdd
  | 4 => 90 + leapAdd
  | 5 => 120 + leapAdd
  | 6 => 151 + leapAdd
  | 7 => 181 + leapAdd
  | 8 => 212 + leapAdd
  | 9 => 243 + leapAdd
  | 10 => 273 + leapAdd
  | 11 => 304 + leapAdd
  | 12 => 334 + leapAdd
  | _ => 0

/-- Epoch day number of the proleptic-Gregorian calendar date `(y, m, d)`
(month 1-based): the inverse of the ECMA-262 field extractors.  Day 0 is
1970-01-01; 719162 is the day count from 0001-01-01 to the epoch. -/
def daysFromCivil (y : Int) (m : Nat) (d : Nat) : Int :=
  365 * (y - 1) + (y - 1) / 4 - (y - 1) / 100 + (y - 1) / 400
    + (daysBeforeMonth y m : Int) + ((d : Int) - 1) - 719162

/-- Calendar fields of an epoch day number: the ECMA-262 abstract operations
`YearFromTime`, `MonthFromTime` (here 1-based) and `DateFromTime`, computed
by the standard civil-from-days algorithm over 400-year eras (719468 is the
day count from 0000-03-01 to the epoch). -/
def civilFromDays (z : Int) : CivilDate :=
  let zz := z + 719468
  let era : Int := zz / 146097
  let doe : Nat := (zz % 146097).toNat
  let yoe : Nat := (doe - doe / 1460 + doe / 36524 - doe / 146096) / 365
  let y : Int := (yoe : Int) + era * 400
  let doy : Nat := doe - (365 * yoe + yoe / 4 - yoe / 100)
  let mp : Nat := (5 * doy + 2) / 153
  let d : Nat := doy - (153 * mp + 2) / 5 + 1
  let m : Nat := if mp < 10 then mp + 3 else mp - 9
  { year := if m ≤ 2 then y + 1 else y, month := m, day := d }

/-- Models `date.getUTCFullYear()` on a valid date. -/
def getUTCFullYear (z : Int) : Int := (civilFromDays z).year

/-- Models `date.getUTCMonth()` on a valid date (0-based, as in JavaScript). -/
def getUTCMonth (z : Int) : Int := ((civilFromDays z).month : Int) - 1

/-- Models `date.getUTCDate()` (the UTC day-of-month) on a valid date. -/
def getUTCDate (z : Int) : Nat := (civilFromDays z).day

/-- ECMA-262 `MakeDay(year, month, date)`: month is 0-based and unbounded
(overflow carries into the year); the day value is added to the first of the
target month, so an out-of-range day rolls over into following months. -/
def makeDay (y m d : Int) : Int :=
  let ym := y + m / 12
  let mn : Nat := (m % 12).toNat
  daysFromCivil ym (mn + 1) 1 + d - 1

/-- ECMA-262 `TimeClip`: time values beyond ±8.64e15 ms (±100,000,000 days)
become the Invalid Date. -/
def timeClip (z : Int) : JSDate :=
  if z.natAbs ≤ 100000000 then some z else none

/-- Models `addDays` from `dates.mjs`: copy the date, then
`result.setUTCDate(result.getUTCDate() + days)`.  On an Invalid Date every
field getter returns `NaN`, so the result stays invalid. -/
def addDays : JSDate → Int → JSDate
  | none, _ => none
  | some z, days => timeClip (makeDay (getUTCFullYear z) (getUTCMonth z) ((getUTCDate z : Int) + days))

/-- Models `addMonths` from `dates.mjs`: copy the date, then
`result.setUTCMonth(result.getUTCMonth() + months)`. -/
def addMonths : JSDate → Int → JSDate
  | none, _ => none
  | some z, months => timeClip (makeDay (getUTCFullYear z) (getUTCMonth z + months) (getUTCDate z : Int))

/-- Models `addYears` from `dates.mjs`: copy the date, then
`result.setUTCFullYear(result.getUTCFullYear() + years)`. -/
def addYears : JSDate → Int → JSDate
  | none, _ => none
  | some z, years => timeClip (makeDay (getUTCFullYear z + years) (getUTCMonth z) (getUTCDate z : Int))

/-- Numeric value of a decimal digit character. -/
def digitVal (c : Char) : Nat := c.toNat - 48

/-- Value of a four-digit year element. -/
def year4 (y1 y2 y3 y4 : Char) : Nat :=
  1000 * digitVal y1 + 100 * digitVal y2 + 10 * digitVal y3 + digitVal y4

/-- Value of a six-digit expanded-year element (before its sign). -/
def year6 (y1 y2 y3 y4 y5 y6 : Char) : Nat :=
  100000 * digitVal y1 + 10000 * digitVal y2 + 1000 * digitVal y3
    + 100 * digitVal y4 + 10 * digitVal y5 + digitVal y6

/-- Value of a two-digit month or day element. -/
def twoDigits (a b : Char) : Nat := 10 * digitVal a + digitVal b

/-- Signed expanded year per ECMA-262: `+` or `-` followed by six digits,
where the representation `-000000` of the year 0 is invalid. -/
def signedYear (sg : Char) (n : Nat) : Option Int :=
  if sg == '+' then some (n : Int)
  else if sg == '-' then (if n == 0 then none else some (-(n : Int)))
  else none

/-- Year, month and day element values of the conforming ECMA-262 date
forms `YYYY`, `YYYY-MM`, `YYYY-MM-DD` and the expanded-year forms
`±YYYYYY[-MM[-DD]]`; absent month and day elements behave as `01`.
`none` for every non-conforming character sequence. -/
def splitDateForm : List Char → Option (Int × Nat × Nat)
  | [y1, y2, y3, y4] =>
    if y1.isDigit && y2.isDigit && y3.isDigit && y4.isDigit then
      some ((year4 y1 y2 y3 y4 : Nat), 1, 1)
    else none
  | [c1, c2, c3, c4, c5, c6, c7] =>
    if c1 == '+' || c1 == '-' then
      if c2.isDigit && c3.isDigit && c4.isDigit && c5.isDigit && c6.isDigit && c7.isDigit then
        (signedYear c1 (year6 c2 c3 c4 c5 c6 c7)).map (fun y => (y, 1, 1))
      else none
    else
      if c1.isDigit && c2.isDigit && c3.isDigit && c4.isDigit && c5 == '-'
          && c6.isDigit && c7.isDigit then
        some ((year4 c1 c2 c3 c4 : Nat), twoDigits c6 c7, 1)
      else none
  | [c1, c2, c3, c4, c5, c6, c7, c8, c9, c10] =>
    if c1 == '+' || c1 == '-' then
      if c2.isDigit && c3.isDigit && c4.isDigit && c5.isDigit && c6.isDigit && c7.isDigit
          && c8 == '-' && c9.isDigit && c10.isDigit then
        (signedYear c1 (year6 c2 c3 c4 c5 c6 c7)).map (fun y => (y, twoDigits c9 c10, 1))
      else none
    else
      if c1.isDigit && c2.isDigit && c3.isDigit && c4.isDigit && c5 == '-'
          && c6.isDigit && c7.isDigit && c8 == '-' && c9.isDigit && c10.isDigit then
        some ((year4 c1 c2 c3 c4 : Nat), twoDigits c6 c7, twoDigits c9 c10)
      else none
  | [sg, y1, y2, y3, y4, y5, y6, h1, m1, m2, h2, d1, d2] =>
    if y1.isDigit && y2.isDigit && y3.isDigit && y4.isDigit && y5.isDigit && y6.isDigit
        && h1 == '-' && m1.isDigit && m2.isDigit && h2 == '-' && d1.isDigit && d2.isDigit then
      (signedYear sg (year6 y1 y2 y3 y4 y5 y6)).map
        (fun y => (y, twoDigits m1 m2, twoDigits d1 d2))
    else none
  | _ => none

/-- Models `new Date(dateString + "T00:00:00.000Z")` in
`calculateRevisionDates`, per the ECMA-262 Date Time String Format: the
concatenated string conforms exactly when `dateString` is one of the date
forms accepted by `splitDateForm`; a conforming string whose elements name a
real calendar date (months `01`-`12`, day within the month) produces that
date's time value through `TimeClip`, and any other string — non-conforming,
or carrying an illegal element value such as `"2026-02-31"` — produces an
Invalid Date (`none`). -/
def parseDateString (s : String) : Option Int :=
  match splitDateForm s.data with
  | none => none
  | some (y, m, d) =>
    if 1 ≤ m && m ≤ 12 && 1 ≤ d && d ≤ daysInMonth y m then
      timeClip (daysFromCivil y m d)
    else none

/-- Validity of a start-date string in `YYYY-MM-DD` form as the
specification words it: exactly the four-digit `YYYY-MM-DD` strings naming
a real calendar date.  This is the domain the error-handling claims speak
about, stated independently of the constructor's parser. -/
def isValidYYYYMMDD (s : String) : Bool :=
  match s.data with
  | [y1, y2, y3, y4, h1, m1, m2, h2, d1, d2] =>
    y1.isDigit && y2.isDigit && y3.isDigit && y4.isDigit && h1 == '-'
      && m1.isDigit && m2.isDigit && h2 == '-' && d1.isDigit && d2.isDigit
      && (1 ≤ twoDigits m1 m2 && twoDigits m1 m2 ≤ 12 && 1 ≤ twoDigits d1 d2
          && twoDigits d1 d2 ≤ daysInMonth ((year4 y1 y2 y3 y4 : Nat) : Int) (twoDigits m1 m2))
  | _ => false

/-- Models `calculateRevisionDates` from `dates.mjs`: parse the start date as
UTC midnight, then build the five offsets, each computed directly from
`startDate`. -/
def calculateRevisionDates (dateString : String) : List JSDate :=
  let startDate := parseDateString dateString
  [ addDays startDate 7,
    addMonths startDate 1,
    addMonths startDate 3,
    addMonths startDate 6,
    addYears startDate 1 ]

/-- Models `date.toLocaleDateString("en-GB", { month: "long", timeZone:
"UTC" })` as a function of the (1-based) UTC month field: the full English
month name. -/
def monthLongName (m : Nat) : String :=
  match m with
  | 1 => "January"
  | 2 => "February"
  | 3 => "March"
  | 4 => "April"
  | 5 => "May"
  | 6 => "June"
  | 7 => "July"
  | 8 => "August"
  | 9 => "September"
  | 10 => "October"
  | 11 => "November"
  | 12 => "December"
  | _ => ""

/-- Models `getOrdinalSuffix` from `dates.mjs`: `"th"` for 11-13, otherwise
by the last digit (`1` → `"st"`, `2` → `"nd"`, `3` → `"rd"`, else `"th"`). -/
def getOrdinalSuffix (num : Nat) : String :=
  if 11 ≤ num ∧ num ≤ 13 then "th"
  else
    match num % 10 with
    | 1 => "st"
    | 2 => "nd"
    | 3 => "rd"
    | _ => "th"

/-- Models `formatDate` from `dates.mjs`.  On a valid date it renders
`` `${day}${ordinal} ${month} ${year}` `` from the UTC fields; on the
Invalid Date the getters return `NaN` and the locale call renders
`"Invalid Date"`, producing the literal string `"NaNth Invalid Date NaN"`. -/
def formatDate : JSDate → String
  | none => "NaNth Invalid Date NaN"
  | some z =>
    toString (getUTCDate z) ++ getOrdinalSuffix (getUTCDate z) ++ " "
      ++ monthLongName (civilFromDays z).month ++ " " ++ toString (getUTCFullYear z)

/-- Host clock instant, by its local-timezone calendar fields (as read by
`getFullYear()`, `getMonth()` — 0-based, `getDate()`) and its UTC calendar
fields (as read by `getUTCFullYear()`, `getUTCMonth()`, `getUTCDate()`). -/
structure HostClock where
  localYear : Int
  localMonth : Nat
  localDay : Nat
  utcYear : Int
  utcMonth : Nat
  utcDay : Nat

/-- ECMA-262 `Date.UTC(y, m, d)` at midnight, as an epoch day number before
clipping: years 0-99 are interpreted as 1900-1999, and the fields feed
`MakeDay`. -/
def dateUTCjs (y : Int) (m : Nat) (d : Nat) : Int :=
  makeDay (if 0 ≤ y ∧ y ≤ 99 then y + 1900 else y) (m : Int) (d : Int)

/-- Models `getTodayUTC` from `dates.mjs`:
`new Date(Date.UTC(now.getFullYear(), now.getMonth(), now.getDate()))`,
built from the clock's local calendar fields. -/
def getTodayUTC (c : HostClock) : JSDate :=
  timeClip (dateUTCjs c.localYear c.localMonth c.localDay)

/-- Models `isFutureDate` from `dates.mjs`: `date >= getTodayUTC()`.  A
relational comparison with an Invalid Date on either side is a comparison
with `NaN` and yields `false`. -/
def isFutureDate (c : HostClock) (date : JSDate) : Bool :=
  match date, getTodayUTC c with
  | some z, some today => decide (today ≤ z)
  | _, _ => false

/-- Ordinal-suffix rule as the specification words it: days 11-13 get
`"th"`; otherwise the last digit decides (`1` → `"st"`, `2` → `"nd"`,
`3` → `"rd"`, else `"th"`). -/
def ordinalSuffixSpec (n : Nat) : String :=
  if 11 ≤ n ∧ n ≤ 13 then "th"
  else if n % 10 = 1 then "st"
  else if n % 10 = 2 then "nd"
  else if n % 10 = 3 then "rd"
  else "th"

/-- Heap of JavaScript `Date` objects: mutable cells holding time values,
addressed by references `0, ..., size - 1`. -/
structure DateHeap where
  size : Nat
  val : Nat → JSDate

/-- Read the time value of a `Date` object. -/
def readDate (h : DateHeap) (r : Nat) : JSDate := h.val r

/-- Models `new Date(date)`: allocate a fresh `Date` object carrying the same
time value and return its reference. -/
def newDateFrom (h : DateHeap) (r : Nat) : DateHeap × Nat :=
  (⟨h.size + 1, fun i => if i = h.size then readDate h r else h.val i⟩, h.size)

/-- Models a `setUTC...` store: overwrite the time value of the `Date` object
at `r`. -/
def setDateValue (h : DateHeap) (r : Nat) (v : JSDate) : DateHeap :=
  ⟨h.size, fun i => if i = r then v else h.val i⟩

/-- Heap-level `addDays`: `const result = new Date(date);
result.setUTCDate(result.getUTCDate() + days); return result;`. -/
def addDaysH (h : DateHeap) (r : Nat) (days : Int) : DateHeap × Nat :=
  let p := newDateFrom h r
  (setDateValue p.1 p.2 (addDays (readDate p.1 p.2) days), p.2)

/-- Heap-level `addMonths`: copy, then `setUTCMonth` on the copy. -/
def addMonthsH (h : DateHeap) (r : Nat) (months : Int) : DateHeap × Nat :=
  let p := newDateFrom h r
  (setDateValue p.1 p.2 (addMonths (readDate p.1 p.2) months), p.2)

/-- Heap-level `addYears`: copy, then `setUTCFullYear` on the copy. -/
def addYearsH (h : DateHeap) (r : Nat) (years : Int) : DateHeap × Nat :=
  let p := newDateFrom h r
  (setDateValue p.1 p.2 (addYears (readDate p.1 p.2) years), p.2)

/-- Heap-level `formatDate`: reads the fields of the `Date` object at `r` and
performs no store. -/
def formatDateH (h : DateHeap) (r : Nat) : DateHeap × String :=
  (h, formatDate (readDate h r))

/-- Year of the UTC month field after shifting by `n` months, as in ECMA-262
`MakeDay` inside `setUTCMonth`. -/
def monthShiftYear (z n : Int) : Int :=
  (civilFromDays z).year + (((civilFromDays z).month : Int) - 1 + n) / 12

/-- One-based month after shifting the UTC month field by `n` months. -/
def monthShiftMonth (z n : Int) : Nat :=
  ((((civilFromDays z).month : Int) - 1 + n) % 12).toNat + 1

theorem daysFromCivil_day_shift (y : Int) (m : Nat) (d : Nat) :
    daysFromCivil y m d = daysFromCivil y m 1 + (d : Int) - 1 := by
  unfold daysFromCivil
  push_cast
  ring

theorem civilFromDays_month_pos (z : Int) : 1 ≤ (civilFromDays z).month := by
  unfold civilFromDays
  dsimp only
  split <;> omega

theorem civilFromDays_month_le (z : Int) : (civilFromDays z).month ≤ 12 := by
  unfold civilFromDays
  dsimp only
  split <;> omega

theorem getOrdinalSuffix_eq_spec (n : Nat) : getOrdinalSuffix n = ordinalSuffixSpec n := by
  unfold getOrdinalSuffix ordinalSuffixSpec
  by_cases h : 11 ≤ n ∧ n ≤ 13
  · rw [if_pos h, if_pos h]
  · rw [if_neg h, if_neg h]
    have h10 : n % 10 = 0 ∨ n % 10 = 1 ∨ n % 10 = 2 ∨ n % 10 = 3 ∨ n % 10 = 4 ∨
        n % 10 = 5 ∨ n % 10 = 6 ∨ n % 10 = 7 ∨ n % 10 = 8 ∨ n % 10 = 9 := by omega
    rcases h10 with h'|h'|h'|h'|h'|h'|h'|h'|h'|h' <;> rw [h'] <;> rfl

/-- C1 counterexample: `"2026"` does not parse to a valid calendar date in
`YYYY-MM-DD` form, yet `calculateRevisionDates "2026"` yields a normal
schedule of five valid dates (the offsets of 2026-01-01, which the ECMA-262
date format assigns to the conforming string `"2026T00:00:00.000Z"`) — no
error is observable at the interface. -/
theorem calculateRevisionDates_year_only_counterexample :
    isValidYYYYMMDD "2026" = false ∧
      calculateRevisionDates "2026" =
        [some (daysFromCivil 2026 1 8), some (daysFromCivil 2026 2 1),
         some (daysFromCivil 2026 4 1), some (daysFromCivil 2026 7 1),
         some (daysFromCivil 2027 1 1)] := by decide

/-- C1 (amended): for every start-date string that the `Date` constructor
cannot parse under the ECMA-262 date-time format — every string that is not
a `YYYY`, `YYYY-MM`, `YYYY-MM-DD` or expanded `±YYYYYY` form naming a valid
calendar date — `calculateRevisionDates` yields an observable error rather
than a normal 5-date schedule: every entry of the returned array is an
Invalid Date (all of its fields are not-a-number sentinels).  (Conforming
date-only strings not in `YYYY-MM-DD` form, such as `"2026"`, instead parse
to a valid date and yield a normal schedule.) -/
theorem calculateRevisionDates_invalid_input_signals_error :
    ∀ s : String, parseDateString s = none →
      ∀ d ∈ calculateRevisionDates s, d = none := by
  intro s h d hd
  unfold calculateRevisionDates at hd
  rw [h] at hd
  simp only [List.mem_cons, List.not_mem_nil, or_false] at hd
  rcases hd with h1|h1|h1|h1|h1 <;> rw [h1] <;> rfl

theorem calculateRevisionDates_invalid_input_signals_error_witness :
    parseDateString "hello" = none ∧
      ∀ d ∈ calculateRevisionDates "hello", d = none :=
  ⟨by decide, calculateRevisionDates_invalid_input_signals_error "hello" (by decide)⟩

/-- C2: for every valid start-date string in `YYYY-MM-DD` form (parsing as
UTC midnight to the start date), `calculateRevisionDates` returns exactly 5
dates, in order start+7 days, start+1 month, start+3 months, start+6 months,
start+1 year, each computed by an independent call to `addDays` /
`addMonths` / `addYears` applied directly to the parsed start date. -/
theorem calculateRevisionDates_independent_offsets :
    ∀ (s : String) (z : Int), parseDateString s = some z →
      calculateRevisionDates s =
        [ addDays (some z) 7, addMonths (some z) 1, addMonths (some z) 3,
          addMonths (some z) 6, addYears (some z) 1 ] ∧
      (calculateRevisionDates s).length = 5 := by
  intro s z h
  unfold calculateRevisionDates
  rw [h]
  exact ⟨rfl, rfl⟩

theorem calculateRevisionDates_independent_offsets_witness :
    parseDateString "2026-07-19" = some 20653 ∧
      calculateRevisionDates "2026-07-19" =
        [ addDays (some 20653) 7, addMonths (some 20653) 1, addMonths (some 20653) 3,
          addMonths (some 20653) 6, addYears (some 20653) 1 ] ∧
      (calculateRevisionDates "2026-07-19").length = 5 :=
  ⟨by decide, calculateRevisionDates_independent_offsets "2026-07-19" 20653 (by decide)⟩

/-- C3: `addMonths` shifts the UTC month field by `n` with JavaScript
`setUTCMonth` rollover semantics, carrying the input's day-of-month verbatim
into the shifted month slot (so a day short of the target month overflows
into the following month instead of clamping); in particular
`addMonths(2026-01-31, 1)` is March 3, 2026, not February 28. -/
theorem addMonths_shifts_month_no_clamp :
    (∀ (z n : Int),
      addMonths (some z) n =
        timeClip (daysFromCivil (monthShiftYear z n) (monthShiftMonth z n)
          (civilFromDays z).day)) ∧
    addMonths (some (daysFromCivil 2026 1 31)) 1 = some (daysFromCivil 2026 3 3) ∧
    daysFromCivil 2026 3 3 ≠ daysFromCivil 2026 2 28 := by
  refine ⟨?_, by decide, by decide⟩
  intro z n
  simp only [addMonths, getUTCFullYear, getUTCMonth, getUTCDate, makeDay,
    monthShiftYear, monthShiftMonth]
  refine congrArg timeClip ?_
  rw [daysFromCivil_day_shift ((civilFromDays z).year + (((civilFromDays z).month : Int) - 1 + n) / 12)
    (((((civilFromDays z).month : Int) - 1 + n) % 12).toNat + 1) (civilFromDays z).day]

/-- C4: `addYears` adds `n` to the UTC year field carrying month and
day-of-month verbatim (a Feb 29 day value overflows into March 1 on a
non-leap target year); in particular `addYears(2024-02-29, 1)` is
March 1, 2025. -/
theorem addYears_preserves_month_day :
    (∀ (z n : Int),
      addYears (some z) n =
        timeClip (daysFromCivil ((civilFromDays z).year + n) (civilFromDays z).month
          (civilFromDays z).day)) ∧
    addYears (some (daysFromCivil 2024 2 29)) 1 = some (daysFromCivil 2025 3 1) := by
  refine ⟨?_, by decide⟩
  intro z n
  have h1 : 1 ≤ (civilFromDays z).month := civilFromDays_month_pos z
  have h12 : (civilFromDays z).month ≤ 12 := civilFromDays_month_le z
  simp only [addYears, getUTCFullYear, getUTCMonth, getUTCDate, makeDay]
  have hdiv : (((civilFromDays z).month : Int) - 1) / 12 = 0 :=
    Int.ediv_eq_zero_of_lt (by omega) (by omega)
  have hmod : (((civilFromDays z).month : Int) - 1) % 12 = ((civilFromDays z).month : Int) - 1 :=
    Int.emod_eq_of_lt (by omega) (by omega)
  rw [hdiv, hmod, add_zero]
  have htn : (((civilFromDays z).month : Int) - 1).toNat + 1 = (civilFromDays z).month := by
    omega
  rw [htn]
  refine congrArg timeClip ?_
  rw [daysFromCivil_day_shift ((civilFromDays z).year + n) (civilFromDays z).month
    (civilFromDays z).day]

/-- C5: for the start date `"2026-07-19"`, mapping `formatDate` over
`calculateRevisionDates` yields exactly `"26th July 2026"`,
`"19th August 2026"`, `"19th October 2026"`, `"19th January 2027"`,
`"19th July 2027"`, in that order. -/
theorem rubric_scenario_2026_07_19 :
    (calculateRevisionDates "2026-07-19").map formatDate =
      ["26th July 2026", "19th August 2026", "19th October 2026",
       "19th January 2027", "19th July 2027"] := by decide

/-- C6: on every valid date, `formatDate` returns
`"<day><ordinal> <full month name> <year>"` built from the UTC day-of-month,
the UTC-anchored full English month name and the UTC year, with the ordinal
suffix `"th"` for days 11-13 and otherwise decided by the last digit
(1 → `"st"`, 2 → `"nd"`, 3 → `"rd"`, else `"th"`). -/
theorem formatDate_shape_and_ordinal :
    ∀ z : Int, formatDate (some z) =
      toString (getUTCDate z) ++ ordinalSuffixSpec (getUTCDate z) ++ " "
        ++ monthLongName (civilFromDays z).month ++ " " ++ toString (getUTCFullYear z) := by
  intro z
  simp only [formatDate]
  rw [getOrdinalSuffix_eq_spec]

/-- C7: `isFutureDate date` returns `true` exactly when
`date >= getTodayUTC()`, inclusively: a date equal to `getTodayUTC()` at the
moment of the call yields `true`. -/
theorem isFutureDate_inclusive_iff :
    ∀ (c : HostClock) (z t : Int), getTodayUTC c = some t →
      ((isFutureDate c (some z) = true ↔ t ≤ z) ∧ isFutureDate c (some t) = true) := by
  intro c z t h
  constructor
  · unfold isFutureDate
    rw [h]
    simp
  · unfold isFutureDate
    rw [h]
    simp

theorem isFutureDate_inclusive_iff_witness :
    getTodayUTC ⟨2026, 6, 19, 2026, 6, 19⟩ = some 20653 ∧
      ((isFutureDate ⟨2026, 6, 19, 2026, 6, 19⟩ (some 20660) = true ↔ (20653 : Int) ≤ 20660) ∧
        isFutureDate ⟨2026, 6, 19, 2026, 6, 19⟩ (some 20653) = true) :=
  ⟨by decide, isFutureDate_inclusive_iff ⟨2026, 6, 19, 2026, 6, 19⟩ 20660 20653 (by decide)⟩

/-- C8: the offset primitives `addDays`, `addMonths`, `addYears` never
mutate their input `Date` object — each allocates a fresh object (a
reference distinct from the input) holding the offset value and leaves the
input's stored value unchanged — and `formatDate` performs no store, so
calling it twice on the same date yields identical strings with the heap
unchanged. -/
theorem offset_primitives_never_mutate_input :
    ∀ (h : DateHeap) (r : Nat) (n : Int), r < h.size →
      (readDate (addDaysH h r n).1 r = readDate h r ∧ (addDaysH h r n).2 ≠ r ∧
        readDate (addDaysH h r n).1 (addDaysH h r n).2 = addDays (readDate h r) n) ∧
      (readDate (addMonthsH h r n).1 r = readDate h r ∧ (addMonthsH h r n).2 ≠ r ∧
        readDate (addMonthsH h r n).1 (addMonthsH h r n).2 = addMonths (readDate h r) n) ∧
      (readDate (addYearsH h r n).1 r = readDate h r ∧ (addYearsH h r n).2 ≠ r ∧
        readDate (addYearsH h r n).1 (addYearsH h r n).2 = addYears (readDate h r) n) ∧
      ((formatDateH h r).1 = h ∧
        (formatDateH (formatDateH h r).1 r).2 = (formatDateH h r).2) := by
  intro h r n hr
  have hne : r ≠ h.size := Nat.ne_of_lt hr
  refine ⟨⟨?_, ?_, ?_⟩, ⟨?_, ?_, ?_⟩, ⟨?_, ?_, ?_⟩, rfl, rfl⟩ <;>
    simp [addDaysH, addMonthsH, addYearsH, newDateFrom, setDateValue, readDate, hne] <;>
    omega

theorem offset_primitives_never_mutate_input_witness :
    (0 : Nat) < (1 : Nat) ∧
      ((readDate (addDaysH ⟨1, fun _ => some 0⟩ 0 7).1 0 = readDate ⟨1, fun _ => some 0⟩ 0 ∧
          (addDaysH ⟨1, fun _ => some 0⟩ 0 7).2 ≠ 0 ∧
          readDate (addDaysH ⟨1, fun _ => some 0⟩ 0 7).1 (addDaysH ⟨1, fun _ => some 0⟩ 0 7).2 =
            addDays (readDate ⟨1, fun _ => some 0⟩ 0) 7) ∧
        (readDate (addMonthsH ⟨1, fun _ => some 0⟩ 0 7).1 0 = readDate ⟨1, fun _ => some 0⟩ 0 ∧
          (addMonthsH ⟨1, fun _ => some 0⟩ 0 7).2 ≠ 0 ∧
          readDate (addMonthsH ⟨1, fun _ => some 0⟩ 0 7).1 (addMonthsH ⟨1, fun _ => some 0⟩ 0 7).2 =
            addMonths (readDate ⟨1, fun _ => some 0⟩ 0) 7) ∧
        (readDate (addYearsH ⟨1, fun _ => some 0⟩ 0 7).1 0 = readDate ⟨1, fun _ => some 0⟩ 0 ∧
          (addYearsH ⟨1, fun _ => some 0⟩ 0 7).2 ≠ 0 ∧
          readDate (addYearsH ⟨1, fun _ => some 0⟩ 0 7).1 (addYearsH ⟨1, fun _ => some 0⟩ 0 7).2 =
            addYears (readDate ⟨1, fun _ => some 0⟩ 0) 7) ∧
        ((formatDateH ⟨1, fun _ => some 0⟩ 0).1 = ⟨1, fun _ => some 0⟩ ∧
          (formatDateH (formatDateH ⟨1, fun _ => some 0⟩ 0).1 0).2 =
            (formatDateH ⟨1, fun _ => some 0⟩ 0).2)) :=
  ⟨by decide, offset_primitives_never_mutate_input ⟨1, fun _ => some 0⟩ 0 7 (by decide)⟩

/-- C9: `getTodayUTC` returns UTC midnight of the host clock's local
calendar date: it is built from the instant's local year, month and day
fields re-expressed as a UTC-midnight value, and not from the instant's UTC
fields (witnessed by a clock instant whose local calendar date differs from
its UTC calendar date). -/
theorem getTodayUTC_from_local_fields :
    (∀ c : HostClock, 100 ≤ c.localYear → c.localMonth ≤ 11 →
        getTodayUTC c = timeClip (daysFromCivil c.localYear (c.localMonth + 1) c.localDay)) ∧
    (∃ c : HostClock, c.localYear = 2026 ∧ c.utcYear = 2025 ∧
        getTodayUTC c ≠ timeClip (dateUTCjs c.utcYear c.utcMonth c.utcDay)) := by
  constructor
  · intro c hy hm
    unfold getTodayUTC dateUTCjs makeDay
    have hno : ¬(0 ≤ c.localYear ∧ c.localYear ≤ 99) := by omega
    rw [if_neg hno]
    have hdiv : ((c.localMonth : Int)) / 12 = 0 :=
      Int.ediv_eq_zero_of_lt (by omega) (by omega)
    have hmod : ((c.localMonth : Int)) % 12 = (c.localMonth : Int) :=
      Int.emod_eq_of_lt (by omega) (by omega)
    rw [hdiv, hmod, add_zero]
    have htn : ((c.localMonth : Int)).toNat + 1 = c.localMonth + 1 := by omega
    dsimp only
    rw [htn]
    refine congrArg timeClip ?_
    rw [daysFromCivil_day_shift c.localYear (c.localMonth + 1) c.localDay]
  · exact ⟨⟨2026, 0, 1, 2025, 11, 31⟩, rfl, rfl, by decide⟩

theorem getTodayUTC_from_local_fields_witness :
    (100 : Int) ≤ 2026 ∧ (6 : Nat) ≤ 11 ∧
      getTodayUTC ⟨2026, 6, 19, 2026, 6, 19⟩ = timeClip (daysFromCivil 2026 7 19) :=
  ⟨by decide, by decide,
    getTodayUTC_from_local_fields.1 ⟨2026, 6, 19, 2026, 6, 19⟩ (by decide) (by decide)⟩

/-- C10 counterexample: `"2026"` is malformed as a `YYYY-MM-DD` start-date
string, yet every one of the 5 entries of `calculateRevisionDates "2026"`
is a valid date — not an Invalid Date with not-a-number sentinel fields, so
inspecting the returned values for NaN does not detect this bad input. -/
theorem calculateRevisionDates_year_only_all_valid :
    isValidYYYYMMDD "2026" = false ∧
      (calculateRevisionDates "2026").length = 5 ∧
      ∀ d ∈ calculateRevisionDates "2026", d ≠ none := by decide

/-- C10 (amended): `calculateRevisionDates` is total over strings — it
never throws — and always returns exactly 5 `Date` values; when the
start-date string is one the `Date` constructor cannot parse (an Invalid
Date), every entry is the Invalid Date (each field a not-a-number
sentinel), so such input is only detectable by inspecting the returned
values.  (ECMA-conforming date-only strings not in `YYYY-MM-DD` form, such
as `"2026"`, instead produce 5 valid dates.) -/
theorem calculateRevisionDates_total_five_invalid :
    ∀ s : String, (calculateRevisionDates s).length = 5 ∧
      (parseDateString s = none →
        calculateRevisionDates s = [none, none, none, none, none]) := by
  intro s
  refine ⟨rfl, fun h => ?_⟩
  unfold calculateRevisionDates
  rw [h]
  rfl

theorem calculateRevisionDates_total_five_invalid_witness :
    parseDateString "2026-02-30" = none ∧
      (calculateRevisionDates "2026-02-30").length = 5 ∧
      calculateRevisionDates "2026-02-30" = [none, none, none, none, none] :=
  ⟨by decide, (calculateRevisionDates_total_five_invalid "2026-02-30").1,
    (calculateRevisionDates_total_five_invalid "2026-02-30").2 (by decide)⟩
